import Mathlib

/-!
Shallow embedding of `mediapipe/model_maker/python/text/text_classifier/text_classifier.py`
(MediaPipe 0.10.7 vendored build), the text-classifier training orchestrator.

Pure functions of the source are translated to Lean functions; stateful
construction is explicit state passing; the `ValueError` raise sites become an
`Except` error type whose constructors follow the error taxonomy
(ConfigurationMismatch / LabelMismatch / TypeMismatch / UnknownModelFamily);
side effects and the strict sequencing of the pipeline
(preprocess → build model → build optimizer → train) are recorded in an
explicit event trace. External collaborators (TensorFlow schedules, the
preprocessor modules, the model-spec registry) that are not part of the file
are modelled from the documented behavior, each marked in its doc comment.
-/

namespace TextClassifierModel

/-! ## Data model -/

/-- A labeled text dataset: ordered label names plus the raw examples.
Mirrors `text_ds.Dataset` as used by `text_classifier.py`
(`label_names`, and the per-example texts yielded by `gen_tf_dataset`). -/
structure Dataset where
  label_names : List String
  texts : List String
  labels : List Nat
deriving Repr, DecidableEq

/-- Argument of `TextClassifier.evaluate`: either a text-classifier dataset or a
foreign dataset type (the `isinstance(data, text_ds.Dataset)` check). -/
inductive EvalData where
  | text (d : Dataset)
  | foreign (tag : String)
deriving Repr, DecidableEq

/-! ## Errors and events -/

/-- The `ValueError` raise sites of the source, tagged by the spec's error
taxonomy.  Each constructor corresponds to one family of raise statements in
`text_classifier.py`; the payload carries the data interpolated into the
Python message. -/
inductive TCError where
  | labelMismatch (trainLabels validationLabels : List String)
  | configMismatch (msg : String)
  | typeMismatch (msg : String)
  | unknownModel (msg : String)
deriving Repr, DecidableEq

/-- Observable work steps of the training pipeline, recorded in order.  A file
write (from `save_model` / `export_model`) would appear as `writeFile`; the
`create` path performs preprocessing, model construction, optimizer
construction and training in this order. -/
inductive Event where
  | preprocess
  | createModel
  | createOptimizer
  | train
  | writeFile (path : String)
deriving Repr, DecidableEq

/-! ## Model options, hyperparameters, model specs -/

/-- `mo.AverageWordEmbeddingModelOptions` (fields as read by the source:
`seq_len`, `wordvec_dim`, `do_lower_case`, `vocab_size`, `dropout_rate`). -/
structure AverageWordEmbeddingModelOptions where
  seq_len : Nat := 256
  wordvec_dim : Nat := 16
  do_lower_case : Bool := true
  vocab_size : Nat := 10000
  dropout_rate : ℚ := 2/10
deriving Repr, DecidableEq

/-- `mo.BertModelOptions` (fields as read by the source: `seq_len`,
`do_fine_tuning`, `dropout_rate`). -/
structure BertModelOptions where
  seq_len : Nat := 128
  do_fine_tuning : Bool := true
  dropout_rate : ℚ := 1/10
deriving Repr, DecidableEq

/-- The optional family-specific model options carried by
`TextClassifierOptions.model_options`; the concrete Python type of the value is
the constructor tag (used by the `isinstance` checks of `_validate`). -/
inductive ModelOptions where
  | averageWordEmbedding (o : AverageWordEmbeddingModelOptions)
  | bert (o : BertModelOptions)
deriving Repr, DecidableEq

/-- `hp.BertOptimizer` selector.  The enum has members ADAMW and LAMB; `other`
stands for any value outside the two recognized selectors, which the source
compares against and rejects in `_create_optimizer`. -/
inductive BertOptimizer where
  | adamw
  | lamb
  | other (s : String)
deriving Repr, DecidableEq

/-- Rendering of the selector used when it is interpolated into the
`ValueError` message of `_create_optimizer`. -/
def BertOptimizer.render : BertOptimizer → String
  | .adamw => "BertOptimizer.ADAMW"
  | .lamb => "BertOptimizer.LAMB"
  | .other s => s

/-- `hp.AverageWordEmbeddingHParams` (fields as read by the source). -/
structure AverageWordEmbeddingHParams where
  batch_size : Nat := 32
  epochs : Nat := 10
  learning_rate : ℚ := 0
  shuffle : Bool := false
deriving Repr, DecidableEq

/-- `hp.BertHParams` (fields as read by the source:
training configuration, optimizer selector, and the binary-only
`desired_precisions` / `desired_recalls` targets; `[]` models Python's
unset/empty falsy value). -/
structure BertHParams where
  batch_size : Nat := 48
  epochs : Nat := 3
  steps_per_epoch : Option Nat := none
  learning_rate : ℚ := 3/100000
  end_learning_rate : ℚ := 0
  weight_decay : ℚ := 1/100
  gamma : ℚ := 0
  desired_precisions : List ℚ := []
  desired_recalls : List ℚ := []
  optimizer : BertOptimizer := .adamw
  shuffle : Bool := false
deriving Repr, DecidableEq

/-- Family-specific hyperparameters wrapped for `TextClassifierOptions.hparams`. -/
inductive HParamsValue where
  | awe (h : AverageWordEmbeddingHParams)
  | bert (h : BertHParams)
deriving Repr, DecidableEq

/-- The two structurally different spec families behind the
`SupportedModels` registry: `AverageWordEmbeddingClassifierSpec` vs
`BertClassifierSpec` (the `isinstance(..., ms.BertClassifierSpec)` checks). -/
inductive SpecFamily where
  | averageWordEmbedding
  | bert
deriving Repr, DecidableEq

/-- Modelled from the spec: the `ms.SupportedModels` enum of the model-spec
registry (a module outside this file).  Members per MediaPipe 0.10.7: the
average-word-embedding classifier and the BERT-family classifiers. -/
inductive SupportedModels where
  | averageWordEmbeddingClassifier
  | mobilebertClassifier
  | exbertClassifier
deriving Repr, DecidableEq

/-- Modelled from the spec: `supported_model.value()` returns the family's spec
object; only its concrete class (spec family) is inspected by this file. -/
def SupportedModels.specFamily : SupportedModels → SpecFamily
  | .averageWordEmbeddingClassifier => .averageWordEmbedding
  | .mobilebertClassifier => .bert
  | .exbertClassifier => .bert

/-- Rendering used when a `SupportedModels` member is interpolated into a
`ValueError` message. -/
def SupportedModels.render : SupportedModels → String
  | .averageWordEmbeddingClassifier => "SupportedModels.AVERAGE_WORD_EMBEDDING_CLASSIFIER"
  | .mobilebertClassifier => "SupportedModels.MOBILEBERT_CLASSIFIER"
  | .exbertClassifier => "SupportedModels.EXBERT_CLASSIFIER"

/-- `text_classifier_options.TextClassifierOptions`: family selector plus
optional model options and hyperparameters. -/
structure TextClassifierOptions where
  supported_model : SupportedModels
  model_options : Option ModelOptions := none
  hparams : Option HParamsValue := none
deriving Repr, DecidableEq

/-- Modelled from the spec: default model options supplied by the family's
spec object (`options.supported_model.value().model_options`) when the caller
leaves them unset. -/
def defaultModelOptions : SpecFamily → ModelOptions
  | .averageWordEmbedding => .averageWordEmbedding {}
  | .bert => .bert {}

/-- Modelled from the spec: default hyperparameters supplied by the family's
spec object (`options.supported_model.value().hparams`) when the caller leaves
them unset. -/
def defaultHParams : SpecFamily → HParamsValue
  | .averageWordEmbedding => .awe {}
  | .bert => .bert {}

/-! ## Option validation (`_validate`) -/

/-- `_validate(options)`: checks that the concrete type of
`options.model_options` matches the selected model family; `None` passes.  A
mismatch raises `ValueError` with the message built in the source.  Pure: no
state, no events. -/
def validateOptions (options : TextClassifierOptions) : Except TCError Unit :=
  match options.model_options with
  | none => .ok ()
  | some (.averageWordEmbedding _) =>
      if options.supported_model ≠ SupportedModels.averageWordEmbeddingClassifier then
        .error (.configMismatch
          ("Expected AVERAGE_WORD_EMBEDDING_CLASSIFIER, got " ++
            options.supported_model.render))
      else .ok ()
  | some (.bert _) =>
      if options.supported_model.specFamily ≠ SpecFamily.bert then
        .error (.configMismatch
          ("Expected a Bert Classifier, got " ++ options.supported_model.render))
      else .ok ()

/-! ## Metrics and loss -/

/-- The metric objects constructed by the source, by concrete class.  The
first three are the always-present metrics.  The last two are the
threshold-swept PR-curve metric classes of the external `metrics` module
(`metrics.BinarySparseRecallAtPrecision` / `metrics.BinarySparsePrecisionAtRecall`);
modelled from the spec, which describes both as threshold-swept PR-curve
metrics differing in which axis is fixed.  `nameStem` carries the constant
part of the `name=` keyword (the numeric suffix of the Python f-string is
float formatting, external to this model); `numThresholds` is the
`num_thresholds` argument (threshold buckets). -/
inductive MetricFn where
  | sparseCategoricalAccuracy (nameArg : String)
  | sparsePrecision (nameArg : String)
  | sparseRecall (nameArg : String)
  | binarySparseRecallAtPrecision (target : ℚ) (nameStem : String) (numThresholds : Nat)
  | binarySparsePrecisionAtRecall (target : ℚ) (nameStem : String) (numThresholds : Nat)
deriving Repr, DecidableEq

/-- A metric that fixes a precision target and reports recall there. -/
def MetricFn.isRecallAtFixedPrecision : MetricFn → Bool
  | .binarySparseRecallAtPrecision _ _ _ => true
  | _ => false

/-- A metric that fixes a recall target and reports precision there. -/
def MetricFn.isPrecisionAtFixedRecall : MetricFn → Bool
  | .binarySparsePrecisionAtRecall _ _ _ => true
  | _ => false

/-- The loss functions the source assigns: the Keras string
`"sparse_categorical_crossentropy"` for the embedding family, and
`loss_functions.SparseFocalLoss(gamma, num_classes)` for the BERT family. -/
inductive LossFn where
  | sparseCategoricalCrossentropy
  | sparseFocalLoss (gamma : ℚ) (numClasses : Nat)
deriving Repr, DecidableEq

/-- `_BertClassifier._create_metrics`, as a function of the inputs it reads
(`self._num_classes`, `self._hparams.desired_precisions`,
`self._hparams.desired_recalls`).  Always builds accuracy / precision /
recall; for `num_classes == 2` appends one metric per desired precision and
one per desired recall (both via `metrics.BinarySparseRecallAtPrecision`, with
`num_thresholds=1000`); otherwise raises if either list is non-empty. -/
def createMetrics (numClasses : Nat) (desiredPrecisions desiredRecalls : List ℚ) :
    Except TCError (List MetricFn) :=
  let metricFunctions : List MetricFn :=
    [.sparseCategoricalAccuracy "accuracy",
     .sparsePrecision "precision",
     .sparseRecall "recall"]
  if numClasses = 2 then
    .ok (metricFunctions
      ++ desiredPrecisions.map (fun desiredPrecision =>
          .binarySparseRecallAtPrecision desiredPrecision "recall_at_precision_" 1000)
      ++ desiredRecalls.map (fun desiredRecall =>
          .binarySparseRecallAtPrecision desiredRecall "precision_at_recall_" 1000))
  else
    if desiredPrecisions ≠ [] ∨ desiredRecalls ≠ [] then
      .error (.configMismatch
        ("desired_recalls and desired_precisions parameters are binary metrics" ++
         " and not supported for num_classes > 2. Found num_classes: " ++
         toString numClasses))
    else
      .ok metricFunctions

/-! ## Learning-rate schedules and optimizers -/

/-- Learning-rate schedule values built by `_create_optimizer`:
`tf.keras.optimizers.schedules.PolynomialDecay` possibly wrapped in
`model_util.WarmUp`, or Keras's constant default learning rate (for the
string-selected `"rmsprop"` optimizer of the embedding family). -/
inductive Schedule where
  | polynomialDecay (initialLearningRate : ℚ) (decaySteps : Nat)
      (endLearningRate : ℚ) (power : Nat)
  | warmUp (initialLearningRate : ℚ) (decayScheduleFn : Schedule) (warmupSteps : Nat)
  | constant (learningRate : ℚ)
deriving Repr, DecidableEq

/-- Modelled from the spec: the value of a schedule at an integer step.
`polynomialDecay` follows TensorFlow's documented formula
`(initial - end) * (1 - min(step, decaySteps)/decaySteps)^power + end`
(linear when `power = 1`); `warmUp` ramps linearly from 0 to the initial
learning rate over the first `warmupSteps` steps and delegates to the wrapped
decay schedule afterwards. -/
def Schedule.valueAt : Schedule → Nat → ℚ
  | .polynomialDecay initial decaySteps endLR power, step =>
      if decaySteps = 0 then endLR
      else (initial - endLR) * (1 - (min step decaySteps : ℚ) / decaySteps) ^ power + endLR
  | .warmUp initial decayScheduleFn warmupSteps, step =>
      if step < warmupSteps then initial * step / warmupSteps
      else decayScheduleFn.valueAt step
  | .constant lr, _ => lr

/-- Whether a schedule varies the learning rate over steps at all. -/
def Schedule.hasVaryingRate : Schedule → Bool
  | .polynomialDecay _ _ _ _ => true
  | .warmUp _ _ _ => true
  | .constant _ => false

/-- The optimizer instances the source constructs: the Keras string
`"rmsprop"` (embedding family; Keras resolves it to an RMSprop instance with
the constant default learning rate 0.001), and the two BERT-family backends
`tf.keras.optimizers.experimental.AdamW` and `tfa_optimizers.LAMB`, each
carrying its schedule, weight decay, epsilon, global clipnorm and the
weight-decay exclusion list. -/
inductive Optimizer where
  | rmsprop
  | adamW (schedule : Schedule) (weightDecay : ℚ) (epsilon : ℚ)
      (globalClipnorm : ℚ) (excludeFromWeightDecay : List String)
  | lamb (schedule : Schedule) (weightDecayRate : ℚ) (epsilon : ℚ)
      (excludeFromWeightDecay : List String) (globalClipnorm : ℚ)
deriving Repr, DecidableEq

/-- The learning-rate schedule an optimizer runs with.  `"rmsprop"` denotes
Keras's default RMSprop, whose learning rate is the constant 0.001. -/
def Optimizer.schedule : Optimizer → Schedule
  | .rmsprop => .constant (1/1000)
  | .adamW sched _ _ _ _ => sched
  | .lamb sched _ _ _ _ => sched

/-- All three optimizer classes the source selects adapt per-parameter step
sizes from running moment estimates of the gradients (RMSprop: second moment;
AdamW and LAMB: first and second moments). -/
def Optimizer.usesAdaptiveMoments : Optimizer → Bool
  | .rmsprop => true
  | .adamW _ _ _ _ _ => true
  | .lamb _ _ _ _ _ => true

/-- Modelled from the spec: `model_util.get_steps_per_epoch` — the explicit
`steps_per_epoch` when set, otherwise the training-set size divided by the
batch size. -/
def getStepsPerEpoch (steps_per_epoch : Option Nat) (batch_size : Nat)
    (trainSize : Nat) : Nat :=
  steps_per_epoch.getD (trainSize / batch_size)

/-- The learning-rate schedule wiring of `_BertClassifier._create_optimizer`:
`total_steps = steps_per_epoch * epochs`; `warmup_steps = int(total_steps * 0.1)`
(equal to `total_steps / 10` in integer division for all realistic step
counts); a linear `PolynomialDecay` from `learning_rate` to
`end_learning_rate` over `total_steps`, wrapped in `WarmUp` iff
`warmup_steps` is non-zero. -/
def createLRSchedule (hparams : BertHParams) (stepsPerEpoch : Nat) : Schedule :=
  let totalSteps := stepsPerEpoch * hparams.epochs
  let warmupSteps := totalSteps / 10
  let lr_schedule : Schedule :=
    .polynomialDecay hparams.learning_rate totalSteps hparams.end_learning_rate 1
  if warmupSteps ≠ 0 then
    .warmUp hparams.learning_rate lr_schedule warmupSteps
  else
    lr_schedule

/-- `_BertClassifier._create_optimizer`: resolves `steps_per_epoch`, builds the
learning-rate schedule, then selects the optimizer backend by
`hparams.optimizer`, raising `ValueError` (naming the selector) for anything
other than ADAMW or LAMB.  Returns the optimizer together with the updated
hyperparameters (the source writes the resolved `steps_per_epoch` back). -/
def createOptimizer (hparams : BertHParams) (trainSize : Nat) :
    Except TCError (Optimizer × BertHParams) :=
  let stepsPerEpoch :=
    getStepsPerEpoch hparams.steps_per_epoch hparams.batch_size trainSize
  let hparams' := { hparams with steps_per_epoch := some stepsPerEpoch }
  let lr_schedule := createLRSchedule hparams stepsPerEpoch
  match hparams.optimizer with
  | .adamw =>
      .ok (.adamW lr_schedule hparams.weight_decay (1/1000000) 1
        ["LayerNorm", "layer_norm", "bias"], hparams')
  | .lamb =>
      .ok (.lamb lr_schedule hparams.weight_decay (1/1000000)
        ["LayerNorm", "layer_norm", "bias"] 1, hparams')
  | .other s =>
      .error (.configMismatch
        ("BertHParams.optimizer must be set to ADAM or LAMB. Got " ++ s ++ "."))

/-! ## Embedding-family preprocessor

`preprocessor.AverageWordEmbeddingClassifierPreprocessor` lives outside this
file; it is modelled from the spec: tokenize raw text by non-word-character
splitting (the source's `_DELIM_REGEX_PATTERN = r"[^\w\']+"`: any run of
characters outside word characters and apostrophe is a delimiter), lower-case
first if configured, build a vocabulary of the `vocab_size` most frequent
tokens over the supplied texts, map out-of-vocabulary tokens to a reserved
id, and pad/truncate every token sequence to `seq_len`. -/

/-- The apostrophe character, the one non-word character the delimiter class
`[^\w\']+` excludes. -/
def apostrophe : Char := Char.ofNat 39

/-- A word character in the sense of the regex class `\w`:
alphanumeric or underscore. -/
def isWordChar (c : Char) : Bool := c.isAlphanum || c = '_'

/-- Characters that are part of a token under `_DELIM_REGEX_PATTERN`; every
other character is a delimiter. -/
def isTokenChar (c : Char) : Bool := isWordChar c || c = apostrophe

/-- Splits a character stream on runs of delimiter characters, accumulating
the current (reversed) token in `acc`.  Empty tokens are not produced. -/
def tokenizeAux : List Char → List Char → List (List Char)
  | [], acc => if acc = [] then [] else [acc.reverse]
  | c :: cs, acc =>
      if isTokenChar c then tokenizeAux cs (c :: acc)
      else if acc = [] then tokenizeAux cs []
      else acc.reverse :: tokenizeAux cs []

/-- Modelled from the spec: regex tokenization of one text — maximal runs of
token characters, delimited by runs of everything else. -/
def tokenize (s : String) : List String :=
  (tokenizeAux s.data []).map (fun cs => String.mk cs)

/-- Lower-cases the text when the `do_lower_case` option is set
(character-wise lower-casing). -/
def lowerIf (do_lower_case : Bool) (s : String) : String :=
  if do_lower_case then String.mk (s.data.map Char.toLower) else s

/-- All tokens of a text corpus, in order, after optional lower-casing. -/
def corpusTokens (do_lower_case : Bool) (texts : List String) : List String :=
  texts.flatMap (fun t => tokenize (lowerIf do_lower_case t))

/-- Number of occurrences of token `w` in the token stream `toks`. -/
def tokenCount (toks : List String) (w : String) : Nat :=
  (toks.filter (fun t => t = w)).length

/-- Inserts `w` into a list kept sorted by non-increasing key: `w` goes in
front of the first element whose key is strictly smaller (stable for equal
keys). -/
def insertByDescKey (key : String → Nat) (w : String) : List String → List String
  | [] => [w]
  | x :: xs =>
      if key x < key w then w :: x :: xs else x :: insertByDescKey key w xs

/-- Stable insertion sort by non-increasing key. -/
def sortByDescKey (key : String → Nat) : List String → List String
  | [] => []
  | x :: xs => insertByDescKey key x (sortByDescKey key xs)

/-- Modelled from the spec: the vocabulary — the `vocab_size` most frequent
tokens of the corpus (distinct tokens sorted by descending occurrence count,
truncated to `vocab_size`; order among equal counts is unspecified by the
spec). -/
def buildVocab (do_lower_case : Bool) (texts : List String) (vocab_size : Nat) :
    List String :=
  let toks := corpusTokens do_lower_case texts
  let distinct := toks.dedup
  let sorted := sortByDescKey (tokenCount toks) distinct
  sorted.take vocab_size

/-- The fitted embedding-family preprocessor: configuration plus the
vocabulary built once at construction.  Immutable after construction. -/
structure AWEPreprocessor where
  seq_len : Nat
  do_lower_case : Bool
  vocab : List String
deriving Repr, DecidableEq

/-- Modelled from the spec: constructing
`AverageWordEmbeddingClassifierPreprocessor(seq_len, do_lower_case, texts,
vocab_size)` fits the vocabulary once, from the supplied texts. -/
def mkAWEPreprocessor (seq_len : Nat) (do_lower_case : Bool)
    (texts : List String) (vocab_size : Nat) : AWEPreprocessor :=
  { seq_len := seq_len
    do_lower_case := do_lower_case
    vocab := buildVocab do_lower_case texts vocab_size }

/-- The reserved id out-of-vocabulary tokens map to. -/
def unknownId : Nat := 0

/-- Id of a token: its index in the vocabulary, or the reserved
out-of-vocabulary id. -/
def tokenId (vocab : List String) (w : String) : Nat :=
  match vocab.indexOf? w with
  | some i => i
  | none => unknownId

/-- Pads (with `padId`) or truncates a token-id sequence to exactly
`seq_len` entries. -/
def padTruncate (seq_len : Nat) (padId : Nat) (ids : List Nat) : List Nat :=
  ids.take seq_len ++ List.replicate (seq_len - ids.length) padId

/-- Modelled from the spec: preprocessing one raw text with a fitted
preprocessor — lower-case if configured, tokenize, map to ids, pad/truncate to
`seq_len`.  Reads the fitted vocabulary; never modifies it. -/
def AWEPreprocessor.preprocessText (pre : AWEPreprocessor) (s : String) : List Nat :=
  padTruncate pre.seq_len unknownId
    ((tokenize (lowerIf pre.do_lower_case s)).map (tokenId pre.vocab))

/-- Modelled from the spec: `preprocess(dataset)` maps every text of the
dataset through the fitted preprocessor, leaving labels unchanged. -/
def AWEPreprocessor.preprocess (pre : AWEPreprocessor) (d : Dataset) :
    List (List Nat) :=
  d.texts.map pre.preprocessText

/-- `_AverageWordEmbeddingClassifier._load_and_run_preprocessor`: collects the
train and validation texts, constructs the preprocessor ONCE from
`train_texts + validation_texts` (train first, validation appended), and runs
it on both datasets. -/
def loadAndRunPreprocessor (model_options : AverageWordEmbeddingModelOptions)
    (train_data validation_data : Dataset) :
    AWEPreprocessor × List (List Nat) × List (List Nat) :=
  let text_preprocessor :=
    mkAWEPreprocessor model_options.seq_len model_options.do_lower_case
      (train_data.texts ++ validation_data.texts) model_options.vocab_size
  (text_preprocessor,
   text_preprocessor.preprocess train_data,
   text_preprocessor.preprocess validation_data)

/-! ## Classifier states and the `create` pipeline -/

/-- State of an `_AverageWordEmbeddingClassifier` instance: the fields its
`__init__` sets, plus the fields `_create_and_train_model` fills in
(`Option` while not yet populated). -/
structure AWEClassifierState where
  label_names : List String
  model_options : AverageWordEmbeddingModelOptions
  hparams : AverageWordEmbeddingHParams
  loss_function : LossFn
  metric_functions : List MetricFn
  text_preprocessor : Option AWEPreprocessor
  optimizer : Option Optimizer
  trained : Bool
deriving Repr, DecidableEq

/-- State of a `_BertClassifier` instance (analogous to
`AWEClassifierState`; the BERT preprocessor is an external artifact-backed
component, recorded here only as present/absent). -/
structure BertClassifierState where
  label_names : List String
  model_options : BertModelOptions
  hparams : BertHParams
  loss_function : LossFn
  metric_functions : List MetricFn
  preprocessorLoaded : Bool
  optimizer : Option Optimizer
  trained : Bool
deriving Repr, DecidableEq

/-- A trained classifier of either family, as returned by
`TextClassifier.create`. -/
inductive CreatedClassifier where
  | awe (st : AWEClassifierState)
  | bert (st : BertClassifierState)
deriving Repr, DecidableEq

/-- `_AverageWordEmbeddingClassifier.__init__`: stores options, sets the loss
to `"sparse_categorical_crossentropy"` and the metrics to accuracy /
precision / recall; preprocessor and optimizer not yet populated. -/
def aweClassifierInit (model_options : AverageWordEmbeddingModelOptions)
    (hparams : AverageWordEmbeddingHParams) (label_names : List String) :
    AWEClassifierState :=
  { label_names := label_names
    model_options := model_options
    hparams := hparams
    loss_function := .sparseCategoricalCrossentropy
    metric_functions :=
      [.sparseCategoricalAccuracy "accuracy",
       .sparsePrecision "precision",
       .sparseRecall "recall"]
    text_preprocessor := none
    optimizer := none
    trained := false }

/-- `_AverageWordEmbeddingClassifier._create_and_train_model` (invoked by
`create_average_word_embedding_classifier` right after `__init__`):
preprocess (fitting the preprocessor), build the Keras model, set the
optimizer to the Keras string `"rmsprop"`, then train.  The event trace
records the steps in source order. -/
def createAndTrainAWEModel (st : AWEClassifierState)
    (train_data validation_data : Dataset) : AWEClassifierState × List Event :=
  let (text_preprocessor, _processed_train, _processed_validation) :=
    loadAndRunPreprocessor st.model_options train_data validation_data
  let st := { st with text_preprocessor := some text_preprocessor }
  let st := { st with optimizer := some .rmsprop }
  ({ st with trained := true },
   [.preprocess, .createModel, .train])

/-- `_AverageWordEmbeddingClassifier.create_average_word_embedding_classifier`. -/
def createAverageWordEmbeddingClassifier
    (train_data validation_data : Dataset)
    (model_options : AverageWordEmbeddingModelOptions)
    (hparams : AverageWordEmbeddingHParams) :
    Except TCError CreatedClassifier × List Event :=
  let st := aweClassifierInit model_options hparams train_data.label_names
  let (st, events) := createAndTrainAWEModel st train_data validation_data
  (.ok (.awe st), events)

/-- `_BertClassifier.__init__`: stores options and, inside the strategy
scope, builds the focal loss (`SparseFocalLoss(gamma, num_classes)`, with
`num_classes = len(label_names)`) and the metric set via `_create_metrics` —
which can raise; nothing else has run at that point (no events). -/
def bertClassifierInit (model_options : BertModelOptions)
    (hparams : BertHParams) (label_names : List String) :
    Except TCError BertClassifierState :=
  match createMetrics label_names.length hparams.desired_precisions
      hparams.desired_recalls with
  | .error e => .error e
  | .ok metric_functions =>
      .ok { label_names := label_names
            model_options := model_options
            hparams := hparams
            loss_function := .sparseFocalLoss hparams.gamma label_names.length
            metric_functions := metric_functions
            preprocessorLoaded := false
            optimizer := none
            trained := false }

/-- `_BertClassifier._create_and_train_model` following `__init__`
(together: `create_bert_classifier`): preprocess, build the model, build the
optimizer (which can raise, after preprocessing and model construction but
before training), then train. -/
def createBertClassifier (train_data validation_data : Dataset)
    (model_options : BertModelOptions) (hparams : BertHParams) :
    Except TCError CreatedClassifier × List Event :=
  match bertClassifierInit model_options hparams train_data.label_names with
  | .error e => (.error e, [])
  | .ok st =>
      let st := { st with preprocessorLoaded := true }
      match createOptimizer st.hparams train_data.texts.length with
      | .error e => (.error e, [.preprocess, .createModel])
      | .ok (optimizer, hparams') =>
          (.ok (.bert { st with
              hparams := hparams'
              optimizer := some optimizer
              trained := true }),
           [.preprocess, .createModel, .createOptimizer, .train])

/-- `TextClassifier.create(train_data, validation_data, options)`: the
label-name equality check comes first (raising `ValueError` before anything
else runs); then `_validate(options)`; then defaults are filled in from the
family spec; then the family-specific create-and-train runs.  The event trace
records every piece of pipeline work performed before returning or raising. -/
def create (train_data validation_data : Dataset)
    (options : TextClassifierOptions) :
    Except TCError CreatedClassifier × List Event :=
  if train_data.label_names ≠ validation_data.label_names then
    (.error (.labelMismatch train_data.label_names validation_data.label_names), [])
  else
    match validateOptions options with
    | .error e => (.error e, [])
    | .ok _ =>
        let family := options.supported_model.specFamily
        let model_options := options.model_options.getD (defaultModelOptions family)
        let hparams := options.hparams.getD (defaultHParams family)
        match family with
        | .bert =>
            let mo := match model_options with
              | .bert b => b
              | .averageWordEmbedding _ => {}
            let hp := match hparams with
              | .bert b => b
              | .awe _ => {}
            createBertClassifier train_data validation_data mo hp
        | .averageWordEmbedding =>
            let mo := match model_options with
              | .averageWordEmbedding a => a
              | .bert _ => {}
            let hp := match hparams with
              | .awe a => a
              | .bert _ => {}
            createAverageWordEmbeddingClassifier train_data validation_data mo hp

/-! ## `evaluate` -/

/-- The fitted preprocessor held by a trained classifier
(`self._text_preprocessor`): the concrete embedding-family preprocessor, or
the BERT preprocessor (external artifact-backed tokenizer, modelled as an
opaque text-to-ids function fitted at training time). -/
inductive FittedPreprocessor where
  | awe (pre : AWEPreprocessor)
  | bert (encode : String → List Nat)

/-- Running a fitted preprocessor over a dataset: pure, reads the fitted
state, never re-fits it. -/
def FittedPreprocessor.run : FittedPreprocessor → Dataset → List (List Nat)
  | .awe pre, d => pre.preprocess d
  | .bert encode, d => d.texts.map encode

/-- `gen_tf_dataset(batch_size, is_training=False)`: lazily batches the
preprocessed examples into consecutive batches of `batch_size` (no shuffling
when not training), modelled as eager chunking. -/
def genTfDataset (batch_size : Nat) : List (List Nat) → List (List (List Nat))
  | [] => []
  | x :: xs =>
      if h : batch_size = 0 then [x :: xs]
      else
        have : ((x :: xs).drop batch_size).length < (x :: xs).length := by
          rw [List.length_drop]
          have hb : 0 < batch_size := Nat.pos_of_ne_zero h
          simp only [List.length_cons]
          omega
        ((x :: xs).take batch_size) :: genTfDataset batch_size ((x :: xs).drop batch_size)
  termination_by xs => xs.length

/-- The state of a trained `TextClassifier` that `evaluate` reads: the fitted
preprocessor stored at training time and the trained model, the latter opaque
(modelled as the loss-and-metrics function `self._model.evaluate`). -/
structure TrainedTextClassifier where
  label_names : List String
  text_preprocessor : FittedPreprocessor
  modelEvaluate : List (List (List Nat)) → ℚ × List ℚ

/-- `TextClassifier.evaluate(data, batch_size, desired_precisions,
desired_recalls)`: rejects anything that is not a text-classifier dataset
with `ValueError` before any preprocessing; otherwise preprocesses with the
stored fitted preprocessor, batches, and returns the model's loss and metric
values.  `desired_precisions` and `desired_recalls` appear in the signature
but are never read by the body.  The event trace records the preprocessing
step. -/
def evaluate (self : TrainedTextClassifier) (data : EvalData)
    (batch_size : Nat := 32)
    (desired_precisions : Option (List ℚ) := none)
    (desired_recalls : Option (List ℚ) := none) :
    Except TCError (ℚ × List ℚ) × List Event :=
  match data with
  | .foreign _ => (.error (.typeMismatch "Need a TextClassifier Dataset."), [])
  | .text d =>
      let processed_data := self.text_preprocessor.run d
      let dataset := genTfDataset batch_size processed_data
      (.ok (self.modelEvaluate dataset), [.preprocess])

/-! ## Accessors and spec-side definitions used by the theorems -/

/-- The optimizer stored in a created classifier of either family. -/
def CreatedClassifier.optimizerOf : CreatedClassifier → Option Optimizer
  | .awe st => st.optimizer
  | .bert st => st.optimizer

/-- The optimizer of a successful `create` result (`none` on failure). -/
def createdOptimizer : Except TCError CreatedClassifier → Option Optimizer
  | .ok c => c.optimizerOf
  | .error _ => none

/-- The schedule of the optimizer built by `_create_optimizer`, when it
succeeds. -/
def okOptimizerSchedule : Except TCError (Optimizer × BertHParams) → Option Schedule
  | .ok (opt, _) => some opt.schedule
  | .error _ => none

/-- Whether a validation result is a `ConfigurationMismatch` failure. -/
def resultIsConfigMismatch : Except TCError Unit → Bool
  | .error (.configMismatch _) => true
  | _ => false

/-- Spec-side (written from the spec's words, for comparison with
`validateOptions`): the options carry model options whose concrete type does
not match the selected model family — embedding options with a non-embedding
family selector, or encoder options with a non-encoder family selector; an
absent value never mismatches. -/
def familyMismatchSpec (options : TextClassifierOptions) : Bool :=
  match options.model_options with
  | none => false
  | some (.averageWordEmbedding _) =>
      options.supported_model.specFamily ≠ SpecFamily.averageWordEmbedding
  | some (.bert _) =>
      options.supported_model.specFamily ≠ SpecFamily.bert

/-- Spec-side (written from the spec's words, for comparison with
`createLRSchedule`): a polynomial decay with power 1.0 from `learningRate` to
`endLearningRate` over `stepsPerEpoch × epochs` total steps; warmup steps are
the integer truncation of 10% of total steps, and when non-zero the decay
schedule is wrapped so the first `warmupSteps` ramp linearly from 0 to
`learningRate` before the decay takes over. -/
def bertScheduleSpec (hparams : BertHParams) (stepsPerEpoch : Nat) : Schedule :=
  let totalSteps := stepsPerEpoch * hparams.epochs
  let warmupSteps := totalSteps / 10
  let decay : Schedule :=
    .polynomialDecay hparams.learning_rate totalSteps hparams.end_learning_rate 1
  if warmupSteps = 0 then decay
  else .warmUp hparams.learning_rate decay warmupSteps

/-! ## Helper lemmas -/

theorem padTruncate_length (seq_len padId : Nat) (ids : List Nat) :
    (padTruncate seq_len padId ids).length = seq_len := by
  simp only [padTruncate, List.length_append, List.length_take, List.length_replicate]
  omega

theorem mem_insertByDescKey {key : String → Nat} {w a : String} :
    ∀ {l : List String}, a ∈ insertByDescKey key w l ↔ a = w ∨ a ∈ l := by
  intro l
  induction l with
  | nil => simp [insertByDescKey]
  | cons x xs ih =>
      simp only [insertByDescKey]
      split
      · simp [List.mem_cons]
      · simp only [List.mem_cons, ih]
        tauto

theorem pairwise_insertByDescKey {key : String → Nat} {w : String} :
    ∀ {l : List String}, l.Pairwise (fun a b => key b ≤ key a) →
      (insertByDescKey key w l).Pairwise (fun a b => key b ≤ key a) := by
  intro l
  induction l with
  | nil => intro _; simp [insertByDescKey]
  | cons x xs ih =>
      intro hp
      rcases List.pairwise_cons.mp hp with ⟨hx, hxs⟩
      simp only [insertByDescKey]
      split
      · next hlt =>
          refine List.pairwise_cons.mpr ⟨?_, hp⟩
          intro b hb
          rcases List.mem_cons.mp hb with rfl | hbxs
          · exact Nat.le_of_lt hlt
          · exact le_trans (hx b hbxs) (Nat.le_of_lt hlt)
      · next hge =>
          refine List.pairwise_cons.mpr ⟨?_, ih hxs⟩
          intro b hb
          rcases mem_insertByDescKey.mp hb with rfl | hbxs
          · exact Nat.le_of_not_lt hge
          · exact hx b hbxs

theorem mem_sortByDescKey {key : String → Nat} {a : String} :
    ∀ {l : List String}, a ∈ sortByDescKey key l ↔ a ∈ l := by
  intro l
  induction l with
  | nil => simp [sortByDescKey]
  | cons x xs ih => simp [sortByDescKey, mem_insertByDescKey, ih]

theorem pairwise_sortByDescKey (key : String → Nat) :
    ∀ (l : List String), (sortByDescKey key l).Pairwise (fun a b => key b ≤ key a) := by
  intro l
  induction l with
  | nil => simp [sortByDescKey]
  | cons x xs ih => exact pairwise_insertByDescKey ih

/-- In a list sorted by non-increasing key, anything outside the first `n`
elements has a key no larger than anything inside them. -/
theorem take_sorted_key_ge {key : String → Nat} {l : List String} {n : Nat}
    {w w' : String}
    (hsorted : l.Pairwise (fun a b => key b ≤ key a))
    (hw : w ∈ l.take n) (hw' : w' ∈ l) (hout : w' ∉ l.take n) :
    key w' ≤ key w := by
  have hpw := hsorted
  rw [← List.take_append_drop n l] at hpw
  have hdrop : w' ∈ l.drop n := by
    have hsplit : w' ∈ l.take n ++ l.drop n := by
      rw [List.take_append_drop]; exact hw'
    rcases List.mem_append.mp hsplit with h | h
    · exact absurd h hout
    · exact h
  exact (List.pairwise_append.mp hpw).2.2 w hw w' hdrop

theorem buildVocab_length_le (do_lower_case : Bool) (texts : List String)
    (vocab_size : Nat) :
    (buildVocab do_lower_case texts vocab_size).length ≤ vocab_size :=
  List.length_take_le _ _

theorem buildVocab_most_frequent (do_lower_case : Bool) (texts : List String)
    (vocab_size : Nat) (w w' : String)
    (hw : w ∈ buildVocab do_lower_case texts vocab_size)
    (hmem : w' ∈ corpusTokens do_lower_case texts)
    (hout : w' ∉ buildVocab do_lower_case texts vocab_size) :
    tokenCount (corpusTokens do_lower_case texts) w' ≤
      tokenCount (corpusTokens do_lower_case texts) w :=
  take_sorted_key_ge (pairwise_sortByDescKey _ _)
    hw (mem_sortByDescKey.mpr (List.mem_dedup.mpr hmem)) hout

theorem tokenizeAux_sound :
    ∀ (cs acc : List Char), (∀ c ∈ acc, isTokenChar c = true) →
      ∀ t ∈ tokenizeAux cs acc, t ≠ [] ∧ ∀ c ∈ t, isTokenChar c = true := by
  intro cs
  induction cs with
  | nil =>
      intro acc hacc t ht
      simp only [tokenizeAux] at ht
      split at ht
      · simp at ht
      · next hne =>
          simp only [List.mem_singleton] at ht
          subst ht
          refine ⟨fun h => hne (by simpa using h), ?_⟩
          intro c hc
          exact hacc c (List.mem_reverse.mp hc)
  | cons c cs ih =>
      intro acc hacc t ht
      simp only [tokenizeAux] at ht
      by_cases htc : isTokenChar c = true
      · rw [if_pos htc] at ht
        refine ih (c :: acc) ?_ t ht
        intro x hx
        rcases List.mem_cons.mp hx with rfl | hxa
        · exact htc
        · exact hacc x hxa
      · rw [if_neg htc] at ht
        by_cases hacc0 : acc = []
        · rw [if_pos hacc0] at ht
          exact ih [] (by simp) t ht
        · rw [if_neg hacc0] at ht
          rcases List.mem_cons.mp ht with rfl | hrest
          · refine ⟨fun h => hacc0 (by simpa using h), ?_⟩
            intro x hx
            exact hacc x (List.mem_reverse.mp hx)
          · exact ih [] (by simp) t hrest

theorem tokenize_sound (s : String) :
    ∀ t ∈ tokenize s, t.data ≠ [] ∧ ∀ c ∈ t.data, isTokenChar c = true := by
  intro t ht
  rcases List.mem_map.mp ht with ⟨cs, hcs, rfl⟩
  exact tokenizeAux_sound s.data [] (by simp) cs hcs

/-! ## Claim theorems -/

/-- Claim C1: for every pair (trainData, validationData) whose label-name sequences
differ (compared by value, order-sensitive), `create` fails with a
LabelMismatch error before any preprocessing or training work is performed
and with no side effects: the event trace is empty, so no preprocessing, no
training and no file write happened. -/
theorem create_label_mismatch_fails_eagerly
    (train_data validation_data : Dataset) (options : TextClassifierOptions)
    (h : train_data.label_names ≠ validation_data.label_names) :
    create train_data validation_data options =
      (.error (.labelMismatch train_data.label_names validation_data.label_names),
       []) := by
  unfold create
  rw [if_pos h]

/-- Witness for C1 at a concrete input: the spec's scenario with
`{"pos","neg"}` training labels and `{"positive","negative"}` validation
labels. -/
theorem create_label_mismatch_fails_eagerly_witness :
    create ⟨["pos", "neg"], ["good movie"], [0]⟩
        ⟨["positive", "negative"], ["bad movie"], [1]⟩
        { supported_model := .averageWordEmbeddingClassifier } =
      (.error (.labelMismatch ["pos", "neg"] ["positive", "negative"]), []) :=
  create_label_mismatch_fails_eagerly _ _ _ (by decide)

/-- Claim C2 (code evaluation at the failing input): with two classes and
`desired_recalls = [0.9]`, `_create_metrics` appends a
`BinarySparseRecallAtPrecision` metric (merely named `precision_at_recall_…`),
not a precision-at-fixed-recall metric: no element of the produced metric set
fixes a recall target, contradicting the claim (and the method's own
docstring, which promises a PrecisionAtRecall metric per desired_recalls
entry). -/
theorem createMetrics_desired_recalls_yield_recall_at_precision :
    createMetrics 2 [] [9/10] =
      .ok [MetricFn.sparseCategoricalAccuracy "accuracy",
           MetricFn.sparsePrecision "precision",
           MetricFn.sparseRecall "recall",
           MetricFn.binarySparseRecallAtPrecision (9/10) "precision_at_recall_" 1000] ∧
    (MetricFn.binarySparseRecallAtPrecision (9/10) "precision_at_recall_"
        1000).isRecallAtFixedPrecision = true ∧
    ([MetricFn.sparseCategoricalAccuracy "accuracy",
      MetricFn.sparsePrecision "precision",
      MetricFn.sparseRecall "recall",
      MetricFn.binarySparseRecallAtPrecision (9/10) "precision_at_recall_" 1000].all
        fun m => !m.isPrecisionAtFixedRecall) = true := by
  refine ⟨rfl, rfl, rfl⟩

/-- Claim C10: the result of `evaluate` is independent of the `desired_precisions`
and `desired_recalls` arguments — the method body never reads them, so any
two calls differing only in those two arguments are equal. -/
theorem evaluate_ignores_desired_precisions_recalls
    (self : TrainedTextClassifier) (data : EvalData) (batch_size : Nat)
    (dp dr dp' dr' : Option (List ℚ)) :
    evaluate self data batch_size dp dr = evaluate self data batch_size dp' dr' := rfl

/-- Claim C3 (counterexample): with three classes and `desired_precisions = [0.9]`,
BERT classifier construction does fail with the configuration error — but the
event trace at the failure is empty, i.e. NO preprocessing has run: the check
fires in `_BertClassifier.__init__` (via `_create_metrics`), which executes
before `_load_and_run_preprocessor`.  This refutes the claim's "raised …
after preprocessing has completed". -/
theorem bert_binary_metrics_error_precedes_preprocessing_cex :
    createBertClassifier ⟨["a", "b", "c"], ["t1"], [0]⟩ ⟨["a", "b", "c"], ["t2"], [1]⟩
        {} { desired_precisions := [9/10] } =
      (.error (.configMismatch
        ("desired_recalls and desired_precisions parameters are binary metrics" ++
         " and not supported for num_classes > 2. Found num_classes: " ++
         toString 3)), []) ∧
    Event.preprocess ∉ (createBertClassifier ⟨["a", "b", "c"], ["t1"], [0]⟩
        ⟨["a", "b", "c"], ["t2"], [1]⟩ {} { desired_precisions := [9/10] }).2 := by
  constructor
  · rfl
  · show Event.preprocess ∉ ([] : List Event)
    simp

/-- Claim C3 (amended): for every encoder-family configuration with
desiredPrecisions or desiredRecalls non-empty and a class count other than
two, classifier construction fails with a fatal configuration error, raised
at metric-construction time during classifier initialization — BEFORE
preprocessing and before any training step runs (empty event trace). -/
theorem bert_binary_metrics_check_at_construction
    (train_data validation_data : Dataset) (model_options : BertModelOptions)
    (hparams : BertHParams)
    (hn : train_data.label_names.length ≠ 2)
    (hd : hparams.desired_precisions ≠ [] ∨ hparams.desired_recalls ≠ []) :
    createBertClassifier train_data validation_data model_options hparams =
      (.error (.configMismatch
        ("desired_recalls and desired_precisions parameters are binary metrics" ++
         " and not supported for num_classes > 2. Found num_classes: " ++
         toString train_data.label_names.length)), []) := by
  unfold createBertClassifier bertClassifierInit createMetrics
  rw [if_neg hn, if_pos hd]

/-- Witness for the amended C3 at a concrete input: three classes,
`desired_recalls = [0.8]`. -/
theorem bert_binary_metrics_check_at_construction_witness :
    createBertClassifier ⟨["x", "y", "z"], ["s1"], [0]⟩ ⟨["x", "y", "z"], ["s2"], [2]⟩
        {} { desired_recalls := [8/10] } =
      (.error (.configMismatch
        ("desired_recalls and desired_precisions parameters are binary metrics" ++
         " and not supported for num_classes > 2. Found num_classes: " ++
         toString (["x", "y", "z"] : List String).length)), []) :=
  bert_binary_metrics_check_at_construction _ _ _ _ (by decide) (Or.inr (by decide))

/-- Claim C6: an encoder-family optimizer selector that is neither the
weight-decay-aware adaptive-moment backend (ADAMW) nor the large-batch
layer-wise-adaptive backend (LAMB) makes classifier construction fail with a
configuration error whose message names the invalid selector, before any
training step runs (the trace ends at model construction and contains no
`train` event).  Stated for configurations whose metric construction
succeeds (`desired_precisions`/`desired_recalls` unset). -/
theorem bert_unknown_optimizer_selector_fails
    (train_data validation_data : Dataset) (model_options : BertModelOptions)
    (hparams : BertHParams) (s : String)
    (hopt : hparams.optimizer = .other s)
    (hdp : hparams.desired_precisions = [])
    (hdr : hparams.desired_recalls = []) :
    createBertClassifier train_data validation_data model_options hparams =
      (.error (.configMismatch
        ("BertHParams.optimizer must be set to ADAM or LAMB. Got " ++ s ++ ".")),
       [.preprocess, .createModel]) ∧
    Event.train ∉ [Event.preprocess, Event.createModel] := by
  constructor
  · by_cases hn : train_data.label_names.length = 2 <;>
      simp [createBertClassifier, bertClassifierInit, createMetrics, createOptimizer,
        hopt, hdp, hdr, hn]
  · decide

/-- Witness for C6 at a concrete input: selector `"sgd"`. -/
theorem bert_unknown_optimizer_selector_fails_witness :
    createBertClassifier ⟨["a", "b"], ["s1"], [0]⟩ ⟨["a", "b"], ["s2"], [1]⟩
        {} { optimizer := .other "sgd" } =
      (.error (.configMismatch
        ("BertHParams.optimizer must be set to ADAM or LAMB. Got " ++ "sgd" ++ ".")),
       [.preprocess, .createModel]) ∧
    Event.train ∉ [Event.preprocess, Event.createModel] :=
  bert_unknown_optimizer_selector_fails _ _ _ _ "sgd" rfl rfl rfl

/-- Claim C4: for every embedding-family training run, the optimizer is fixed
regardless of the input data and configuration: `_create_and_train_model`
always assigns the Keras string `"rmsprop"`, an adaptive-moment optimizer
(RMSprop adapts per-parameter steps from a running second-moment estimate)
whose learning rate is the constant Keras default — no learning-rate
schedule. -/
theorem awe_optimizer_fixed_rmsprop
    (train_data validation_data : Dataset)
    (model_options : AverageWordEmbeddingModelOptions)
    (hparams : AverageWordEmbeddingHParams) :
    createdOptimizer (createAverageWordEmbeddingClassifier train_data
        validation_data model_options hparams).1 = some .rmsprop ∧
    Optimizer.schedule .rmsprop = .constant (1/1000) ∧
    (Optimizer.schedule .rmsprop).hasVaryingRate = false ∧
    Optimizer.usesAdaptiveMoments .rmsprop = true :=
  ⟨rfl, rfl, rfl, rfl⟩

/-- Claim C7: `_validate` is a pure check (a plain function of the options, with no
events and no state): an absent model-options value always passes; options
whose concrete type does not match the selected family (spec-side predicate
`familyMismatchSpec`) fail with a ConfigurationMismatch error; matching
options pass; and when it fails inside `create`, the error propagates with an
empty event trace, i.e. before any resource allocation or pipeline work. -/
theorem validate_rejects_family_mismatch (options : TextClassifierOptions) :
    (options.model_options = none → validateOptions options = .ok ()) ∧
    (familyMismatchSpec options = true →
      resultIsConfigMismatch (validateOptions options) = true) ∧
    (familyMismatchSpec options = false → validateOptions options = .ok ()) ∧
    (∀ (train_data validation_data : Dataset) (e : TCError),
      train_data.label_names = validation_data.label_names →
      validateOptions options = .error e →
      create train_data validation_data options = (.error e, [])) := by
  refine ⟨?_, ?_, ?_, ?_⟩
  · intro h
    simp [validateOptions, h]
  · rcases options with ⟨sm, mo, hp⟩
    rcases mo with _ | mo
    · simp [familyMismatchSpec]
    · rcases mo with mo | mo <;> rcases sm <;>
        simp [familyMismatchSpec, validateOptions, resultIsConfigMismatch,
          SupportedModels.specFamily]
  · rcases options with ⟨sm, mo, hp⟩
    rcases mo with _ | mo
    · simp [familyMismatchSpec, validateOptions]
    · rcases mo with mo | mo <;> rcases sm <;>
        simp [familyMismatchSpec, validateOptions, SupportedModels.specFamily]
  · intro train_data validation_data e heq herr
    simp [create, heq, herr]

/-- Witness for C7 at concrete inputs: embedding options with an encoder
selector are rejected, and absent options pass. -/
theorem validate_rejects_family_mismatch_witness :
    resultIsConfigMismatch (validateOptions
      { supported_model := SupportedModels.mobilebertClassifier,
        model_options := some (.averageWordEmbedding {}) }) = true ∧
    validateOptions { supported_model := SupportedModels.mobilebertClassifier } =
      .ok () :=
  ⟨(validate_rejects_family_mismatch _).2.1 (by decide),
   (validate_rejects_family_mismatch _).1 rfl⟩

/-- Claim C8: `evaluate` rejects any data value that is not the text-classifier
dataset abstraction with a TypeMismatch error and an empty trace (no
preprocessing); on a text-classifier dataset it preprocesses with the fitted
preprocessor instance stored at training time (`self._text_preprocessor`,
reused read-only — no vocabulary re-fitting), batches the result, and
returns the model's loss and metric values. -/
theorem evaluate_type_check_and_fitted_preprocessor
    (self : TrainedTextClassifier) (data : EvalData) (batch_size : Nat)
    (dp dr : Option (List ℚ)) :
    (∀ tag, data = .foreign tag →
      evaluate self data batch_size dp dr =
        (.error (.typeMismatch "Need a TextClassifier Dataset."), [])) ∧
    (∀ d, data = .text d →
      evaluate self data batch_size dp dr =
        (.ok (self.modelEvaluate
          (genTfDataset batch_size (self.text_preprocessor.run d))),
         [.preprocess])) := by
  constructor
  · intro tag h
    subst h
    rfl
  · intro d h
    subst h
    rfl

/-- Witness for C8 at a concrete input: a foreign dataset type is rejected
before preprocessing. -/
theorem evaluate_type_check_and_fitted_preprocessor_witness :
    evaluate
      { label_names := ["pos", "neg"],
        text_preprocessor := .awe (mkAWEPreprocessor 4 true ["good movie"] 10),
        modelEvaluate := fun _ => (0, [1]) }
      (.foreign "image_dataset") 32 none none =
      (.error (.typeMismatch "Need a TextClassifier Dataset."), []) :=
  (evaluate_type_check_and_fitted_preprocessor _ _ _ _ _).1 "image_dataset" rfl

/-- Claim C5: the encoder-family learning-rate schedule is exactly the spec's:
polynomial decay with power 1 (linear) from `learning_rate` to
`end_learning_rate` over `stepsPerEpoch × epochs` total steps; warmup steps
are the integer truncation of 10% of total steps; when warmup is non-zero the
decay is wrapped so the first `warmupSteps` ramp linearly from 0 to
`learning_rate` (value `learning_rate · step / warmupSteps`) before the decay
takes over (the wrapped schedule's value from `warmupSteps` on equals the
plain decay's); and the optimizer built by `_create_optimizer` carries this
schedule. -/
theorem bert_lr_schedule_linear_decay_with_warmup
    (hparams : BertHParams) (stepsPerEpoch : Nat) :
    createLRSchedule hparams stepsPerEpoch = bertScheduleSpec hparams stepsPerEpoch ∧
    (∀ step : Nat, stepsPerEpoch * hparams.epochs / 10 ≠ 0 →
      step < stepsPerEpoch * hparams.epochs / 10 →
      (createLRSchedule hparams stepsPerEpoch).valueAt step =
        hparams.learning_rate * (step : ℚ) /
          ((stepsPerEpoch * hparams.epochs / 10 : Nat) : ℚ)) ∧
    (∀ step : Nat, stepsPerEpoch * hparams.epochs / 10 ≠ 0 →
      stepsPerEpoch * hparams.epochs / 10 ≤ step →
      (createLRSchedule hparams stepsPerEpoch).valueAt step =
        (Schedule.polynomialDecay hparams.learning_rate
          (stepsPerEpoch * hparams.epochs) hparams.end_learning_rate 1).valueAt step) ∧
    (∀ (trainSize : Nat) (opt : Optimizer) (hparams' : BertHParams),
      createOptimizer hparams trainSize = .ok (opt, hparams') →
      opt.schedule = createLRSchedule hparams
        (getStepsPerEpoch hparams.steps_per_epoch hparams.batch_size trainSize)) := by
  refine ⟨?_, ?_, ?_, ?_⟩
  · by_cases h : stepsPerEpoch * hparams.epochs / 10 = 0 <;>
      simp [createLRSchedule, bertScheduleSpec, h]
  · intro step h hstep
    simp only [createLRSchedule]
    rw [if_pos h]
    simp [Schedule.valueAt, hstep]
  · intro step h hstep
    simp only [createLRSchedule]
    rw [if_pos h]
    simp [Schedule.valueAt, Nat.not_lt.mpr hstep]
  · intro trainSize opt hparams' hok
    rcases hcase : hparams.optimizer with _ | _ | s <;>
      simp [createOptimizer, hcase] at hok
    · rw [← hok.1]
      rfl
    · rw [← hok.1]
      rfl

/-- Witness for C5 at concrete inputs: default BERT hyperparameters with 100
steps per epoch (total 300 steps, 30 warmup steps), evaluated in the warmup
phase (step 15), in the decay phase (step 40), and through
`_create_optimizer` with a 4800-example training set and batch size 48. -/
theorem bert_lr_schedule_linear_decay_with_warmup_witness :
    createLRSchedule ({} : BertHParams) 100 = bertScheduleSpec {} 100 ∧
    (createLRSchedule ({} : BertHParams) 100).valueAt 15 =
      ({} : BertHParams).learning_rate * ((15 : Nat) : ℚ) /
        ((100 * ({} : BertHParams).epochs / 10 : Nat) : ℚ) ∧
    (createLRSchedule ({} : BertHParams) 100).valueAt 40 =
      (Schedule.polynomialDecay ({} : BertHParams).learning_rate
        (100 * ({} : BertHParams).epochs) ({} : BertHParams).end_learning_rate
        1).valueAt 40 ∧
    (Optimizer.adamW
        (Schedule.warmUp (3/100000) (.polynomialDecay (3/100000) 300 0 1) 30)
        (1/100) (1/1000000) 1 ["LayerNorm", "layer_norm", "bias"]).schedule =
      createLRSchedule {}
        (getStepsPerEpoch ({} : BertHParams).steps_per_epoch
          ({} : BertHParams).batch_size 4800) := by
  have h := bert_lr_schedule_linear_decay_with_warmup ({} : BertHParams) 100
  refine ⟨h.1, h.2.1 15 (by decide) (by decide), h.2.2.1 40 (by decide) (by decide), ?_⟩
  exact h.2.2.2 4800
    (.adamW (Schedule.warmUp (3/100000) (.polynomialDecay (3/100000) 300 0 1) 30)
      (1/100) (1/1000000) 1 ["LayerNorm", "layer_norm", "bias"])
    { steps_per_epoch := some 100 } (by rfl)

/-- Claim C9: `_load_and_run_preprocessor` builds the preprocessor exactly once,
from the concatenation of the train texts followed by the validation texts;
the fitted vocabulary holds at most `vocab_size` tokens and every token left
out of it occurs no more often in the corpus than any token included (the
`vocab_size` most frequent tokens); both preprocessed datasets come from that
single fitted instance and every token-id sequence has length exactly
`seq_len`; and tokenization splits on runs of non-word characters — every
produced token is non-empty and consists only of word characters and
apostrophes. -/
theorem awe_preprocessor_vocab_once_and_shapes
    (model_options : AverageWordEmbeddingModelOptions)
    (train_data validation_data : Dataset) :
    (loadAndRunPreprocessor model_options train_data validation_data).1 =
      mkAWEPreprocessor model_options.seq_len model_options.do_lower_case
        (train_data.texts ++ validation_data.texts) model_options.vocab_size ∧
    (loadAndRunPreprocessor model_options train_data validation_data).1.vocab.length ≤
      model_options.vocab_size ∧
    (∀ w w',
      w ∈ (loadAndRunPreprocessor model_options train_data validation_data).1.vocab →
      w' ∈ corpusTokens model_options.do_lower_case
        (train_data.texts ++ validation_data.texts) →
      w' ∉ (loadAndRunPreprocessor model_options train_data validation_data).1.vocab →
      tokenCount (corpusTokens model_options.do_lower_case
          (train_data.texts ++ validation_data.texts)) w' ≤
        tokenCount (corpusTokens model_options.do_lower_case
          (train_data.texts ++ validation_data.texts)) w) ∧
    (∀ ids ∈ (loadAndRunPreprocessor model_options train_data validation_data).2.1,
      ids.length = model_options.seq_len) ∧
    (∀ ids ∈ (loadAndRunPreprocessor model_options train_data validation_data).2.2,
      ids.length = model_options.seq_len) ∧
    (∀ (s : String), ∀ t ∈ tokenize s,
      t.data ≠ [] ∧ ∀ c ∈ t.data, isTokenChar c = true) := by
  refine ⟨rfl, ?_, ?_, ?_, ?_, ?_⟩
  · exact buildVocab_length_le _ _ _
  · intro w w' hw hmem hout
    exact buildVocab_most_frequent _ _ _ _ _ hw hmem hout
  · intro ids hids
    rcases List.mem_map.mp hids with ⟨s, _, rfl⟩
    exact padTruncate_length _ _ _
  · intro ids hids
    rcases List.mem_map.mp hids with ⟨s, _, rfl⟩
    exact padTruncate_length _ _ _
  · exact tokenize_sound

/-- Witness for C9 at a concrete input: train text `"a b a"`, validation text
`"b a"`, `seq_len = 3`, `vocab_size = 1`: the vocabulary keeps only the most
frequent token `"a"`, the excluded `"b"` occurs no more often, and the
preprocessed train sequence `[0, 0, 0]` has length `seq_len`. -/
theorem awe_preprocessor_vocab_once_and_shapes_witness :
    tokenCount (corpusTokens true (["a b a"] ++ ["b a"])) "b" ≤
      tokenCount (corpusTokens true (["a b a"] ++ ["b a"])) "a" ∧
    ([0, 0, 0] : List Nat).length = 3 := by
  have h := awe_preprocessor_vocab_once_and_shapes
    { seq_len := 3, vocab_size := 1, do_lower_case := true }
    ⟨["pos", "neg"], ["a b a"], [0]⟩ ⟨["pos", "neg"], ["b a"], [1]⟩
  exact ⟨h.2.2.1 "a" "b" (by decide) (by decide) (by decide),
         h.2.2.2.1 [0, 0, 0] (by decide)⟩

end TextClassifierModel
